import Mathlib

/-!
Verification of the TPM2 trusted-key core
(security/keys/trusted-keys/trusted_tpm2.c).

The C code is shallowly embedded: byte buffers are `List Nat` (each entry a
byte value), machine integers are `Nat`/`Int` with explicit `% 2 ^ w` where
wrap-around matters, fallible operations return `Except Int`, and the
external collaborators (the TPM transport, session bookkeeping and the
generic `tpm_buf` helpers) are represented by oracle structures that supply
their observable results.  A payload's `blob` list holds exactly the
`blob_len` meaningful bytes of the C `blob[MAX_BLOB_SIZE]` array, and its
`key` list the `key_len` meaningful bytes of `key`, so `payload->blob_len`
is rendered as `payload.blob.length`.

The ASN.1 encoder primitives (`lib/asn1_encoder.c`), the BER decode engine
(`lib/asn1_decoder.c` driven by the `tpm2key.asn1` schema) and a handful of
constants live in the same repository but outside the extracted source;
they are modelled from the specification where marked.
-/

/-- Modelled from the spec: error numbers used by the core (`-EINVAL`,
`-E2BIG`, `-EFAULT`, `-EPERM`, `-ENOMEM`, `-EBADMSG`), from the shared
errno tables of the repository. -/
def EINVAL : Int := 22

def E2BIG : Int := 7

def EFAULT : Int := 14

def EPERM : Int := 1

def ENOMEM : Int := 12

def EBADMSG : Int := 74

/-- Modelled from the spec: the payload blob capacity bound `MAX_BLOB_SIZE`
declared in the trusted-keys header of the repository (512 bytes). -/
def MAX_BLOB_SIZE : Nat := 512

/-- Modelled from the spec: minimum accepted secret length `MIN_KEY_SIZE`
from the trusted-keys header (32 bytes). -/
def MIN_KEY_SIZE : Nat := 32

/-- Modelled from the spec: maximum accepted secret length `MAX_KEY_SIZE`
from the trusted-keys header (128 bytes). -/
def MAX_KEY_SIZE : Nat := 128

/-- Modelled from the spec: the fixed TPM2 command header size (tag,
length, ordinal) used as the offset of response payloads. -/
def TPM_HEADER_SIZE : Nat := 10

/-- Modelled from the spec: object attribute bit `fixedTPM` (bit 1) from
the TPM interface header of the repository. -/
def TPM2_OA_FIXED_TPM : Nat := 2

/-- Modelled from the spec: object attribute bit `fixedParent` (bit 4)
from the TPM interface header of the repository. -/
def TPM2_OA_FIXED_PARENT : Nat := 16

/-- Modelled from the spec: the module's "bad hash algorithm" return code
`TPM2_RC_HASH` (a format-one code, value 0x083). -/
def TPM2_RC_HASH : Nat := 0x83

/-- Modelled from the spec: the return-code normalizer `tpm2_rc_value`
from the TPM interface header: format-one codes (bit 7 set) are masked to
their low byte, stripping the handle/parameter index. -/
def tpm2_rc_value (rc : Nat) : Nat :=
  if rc &&& 128 ≠ 0 then rc &&& 0xff else rc

/-- Modelled from the spec: digest algorithm identifiers from the shared
crypto hash table of the repository. -/
def HASH_ALGO_SHA1 : Nat := 2

def HASH_ALGO_SHA256 : Nat := 4

def HASH_ALGO_SHA384 : Nat := 5

def HASH_ALGO_SHA512 : Nat := 6

def HASH_ALGO_SM3_256 : Nat := 17

/-- Modelled from the spec: module-protocol algorithm codes from the TPM
interface header. -/
def TPM_ALG_SHA1 : Nat := 0x4

def TPM_ALG_SHA256 : Nat := 0xB

def TPM_ALG_SHA384 : Nat := 0xC

def TPM_ALG_SHA512 : Nat := 0xD

def TPM_ALG_SM3_256 : Nat := 0x12

/-- The static table pairing a digest-algorithm identifier with its
module-protocol code (trusted_tpm2.c lines 21-27). -/
def tpm2_hash_map : List (Nat × Nat) :=
  [(HASH_ALGO_SHA1, TPM_ALG_SHA1),
   (HASH_ALGO_SHA256, TPM_ALG_SHA256),
   (HASH_ALGO_SHA384, TPM_ALG_SHA384),
   (HASH_ALGO_SHA512, TPM_ALG_SHA512),
   (HASH_ALGO_SM3_256, TPM_ALG_SM3_256)]

/-- Reading a big-endian 16-bit value at the head of a byte list
(`get_unaligned_be16`); reads past the end of the list see byte 0. -/
def get_be16 (l : List Nat) : Nat :=
  l.getD 0 0 * 256 + l.getD 1 0

/-- Reading a big-endian 32-bit value at the head of a byte list
(`get_unaligned_be32`). -/
def get_be32 (l : List Nat) : Nat :=
  get_be16 l * 65536 + get_be16 (l.drop 2)

/-- The caller-supplied options structure (`struct trusted_key_options`).
The digest and secrets are opaque here; `blobauth_len` is kept as its own
field exactly as in the C structure. -/
structure trusted_key_options where
  keyhandle : Nat
  keyauth : List Nat
  blobauth : List Nat
  blobauth_len : Nat
  policydigest : List Nat
  policydigest_len : Nat
  policyhandle : Nat
  hash : Nat
deriving Repr, DecidableEq

/-- The caller-owned payload (`struct trusted_key_payload`).  `blob` holds
the `blob_len` meaningful bytes of the C blob array and `key` the secret
bytes; `key_len` is carried separately because the C code assigns it
independently. -/
structure trusted_key_payload where
  key : List Nat
  key_len : Nat
  blob : List Nat
  migratable : Nat
  old_format : Nat
deriving Repr, DecidableEq

/-- Modelled from the spec: the definite-length encoder of
`lib/asn1_encoder.c` (short form below 0x80, long form with a length-of-
length byte above). -/
def asn1_encode_length (n : Nat) : List Nat :=
  if n ≤ 0x7f then [n]
  else if n ≤ 0xff then [0x81, n]
  else if n ≤ 0xffff then [0x82, n / 256, n % 256]
  else if n ≤ 0xffffff then [0x83, n / 65536, n / 256 % 256, n % 256]
  else [0x84, n / 16777216, n / 65536 % 256, n / 256 % 256, n % 256]

/-- Modelled from the spec: a tag-length-value triple as produced by the
primitive writers of `lib/asn1_encoder.c`. -/
def asn1_tlv (tag : Nat) (content : List Nat) : List Nat :=
  tag :: (asn1_encode_length content.length ++ content)

/-- Modelled from the spec: the DER content bytes of the fixed object
identifier 2.23.133.10.1.5 (`tpm2key_oid`, the "sealed data" type). -/
def tpm2SealedData_oid : List Nat := [0x67, 0x81, 0x05, 0x0A, 0x01, 0x05]

/-- Modelled from the spec: the encoded OID field written by
`asn1_encode_oid` for `tpm2key_oid`. -/
def tpm2key_oid_tlv : List Nat := asn1_tlv 0x06 tpm2SealedData_oid

/-- Modelled from the spec: the optional `emptyAuth` field, a context tag 0
wrapping the boolean TRUE encoding produced by `asn1_encode_boolean` and
`asn1_encode_tag`. -/
def emptyAuth_tlv : List Nat := asn1_tlv 0xA0 [0x01, 0x01, 0x01]

/-- The eight big-endian bytes of a 64-bit value, most significant
first. -/
def be64_bytes (v : Nat) : List Nat :=
  [v / 2 ^ 56 % 256, v / 2 ^ 48 % 256, v / 2 ^ 40 % 256, v / 2 ^ 32 % 256,
   v / 2 ^ 24 % 256, v / 2 ^ 16 % 256, v / 2 ^ 8 % 256, v % 256]

/-- Modelled from the spec: the INTEGER content bytes written by
`asn1_encode_integer` for a non-negative 64-bit value: leading zero bytes
are skipped, and one zero byte is kept (or re-added) so the value does not
read as negative. -/
def asn1_int_content (v : Nat) : List Nat :=
  match (be64_bytes (v % 2 ^ 64)).dropWhile (fun b => b == 0) with
  | [] => [0]
  | b :: bs => if 128 ≤ b then 0 :: b :: bs else b :: bs

/-- Blob Codec encoder `tpm2_key_encode` (trusted_tpm2.c lines 31-99).
`src` is the raw module response: a 2-byte big-endian private length, the
private bytes, then a 2-byte public length and the public bytes; both
captured areas include their length prefixes.  The `len` parameter of the
C function is unused there and omitted.  The scratch guard of line 74 and
the capacity check of `asn1_encode_sequence` against the 512-byte
`payload->blob` destination are both rendered; `kmalloc` is assumed to
succeed. -/
def tpm2_key_encode (options : trusted_key_options) (src : List Nat) :
    Except Int (List Nat) :=
  let priv_len := (get_be16 src + 2) % 65536
  let priv := src.take priv_len
  let rest := src.drop priv_len
  let pub_len := (get_be16 rest + 2) % 65536
  let pub := rest.take pub_len
  let work0 := tpm2key_oid_tlv ++
    (if options.blobauth_len = 0 then emptyAuth_tlv else [])
  if 4096 < work0.length + pub_len + priv_len + 14 then
    Except.error (-EINVAL)
  else
    let inner := work0 ++ asn1_tlv 0x02 (asn1_int_content options.keyhandle) ++
      asn1_tlv 0x04 pub ++ asn1_tlv 0x04 priv
    let blob := asn1_tlv 0x30 inner
    if blob.length ≤ MAX_BLOB_SIZE then Except.ok blob
    else Except.error (-EINVAL)

/-- The ephemeral decode context (`struct tpm2_key_context`); the public
and private fields are the captured octet-string contents. -/
structure tpm2_key_context where
  parent : Nat
  pub : List Nat
  priv : List Nat
deriving Repr, DecidableEq

/-- Field callback `tpm2_key_parent` (trusted_tpm2.c lines 142-157): folds
the integer field's bytes big-endian into a 32-bit accumulator (shift left
by 8 with 32-bit wrap-around, then bitwise or) and always returns status
0. -/
def tpm2_key_parent (value : List Nat) : Nat × Int :=
  (value.foldl (fun p b => p * 256 % 2 ^ 32 ||| b) 0, 0)

/-- Field callback `tpm2_key_type` (trusted_tpm2.c lines 159-175): the
identifier field must be the "sealed data" OID. -/
def tpm2_key_type (value : List Nat) : Int :=
  if value = tpm2SealedData_oid then 0 else -EINVAL

/-- Modelled from the spec: the definite-length reader of the BER decode
engine (`lib/asn1_decoder.c`): one short-form byte, or a long form with
one or two length bytes. -/
def asn1_parse_len : List Nat → Option (Nat × List Nat)
  | [] => none
  | b :: r =>
    if b < 0x80 then some (b, r)
    else if b = 0x81 then
      match r with
      | c :: r2 => some (c, r2)
      | [] => none
    else if b = 0x82 then
      match r with
      | c :: d :: r2 => some (c * 256 + d, r2)
      | _ => none
    else none

/-- Modelled from the spec: one tag-length-value element consumed by the
BER decode engine; the content must lie inside the remaining input. -/
def asn1_parse_tlv (tag : Nat) (l : List Nat) : Option (List Nat × List Nat) :=
  match l with
  | [] => none
  | t :: r =>
    if t = tag then
      match asn1_parse_len r with
      | some (n, r2) => if n ≤ r2.length then some (r2.take n, r2.drop n) else none
      | none => none
    else none

/-- Modelled from the spec: the optional `[0] EXPLICIT BOOLEAN` field of
the tpm2key schema; present only when the next tag byte is the context
tag 0, in which case it must wrap a well-formed boolean. -/
def asn1_parse_optional_auth (l : List Nat) : Option (List Nat) :=
  match l with
  | 0xA0 :: _ =>
    match asn1_parse_tlv 0xA0 l with
    | some (c, r) =>
      match c with
      | [0x01, 0x01, _] => some r
      | _ => none
    | none => none
  | _ => some l

/-- Modelled from the spec: the BER decode engine driven by the tpm2key
schema `SEQUENCE ( OID, optional tagged BOOLEAN, INTEGER parent,
OCTET STRING public, OCTET STRING private )`, rendered as the
recursive-descent parser the spec's design notes license, invoking the
field callbacks `tpm2_key_type`, `tpm2_key_parent` and the two
octet-string captures.  The whole input must be consumed. -/
def tpm2key_parse (blob : List Nat) : Option tpm2_key_context :=
  match asn1_parse_tlv 0x30 blob with
  | some (inner, rest) =>
    if rest.isEmpty then
      match asn1_parse_tlv 0x06 inner with
      | some (oid, r1) =>
        if tpm2_key_type oid = 0 then
          match asn1_parse_optional_auth r1 with
          | some r2 =>
            match asn1_parse_tlv 0x02 r2 with
            | some (ival, r3) =>
              match asn1_parse_tlv 0x04 r3 with
              | some (pub, r4) =>
                match asn1_parse_tlv 0x04 r4 with
                | some (priv, r5) =>
                  if r5.isEmpty then
                    some { parent := (tpm2_key_parent ival).1, pub := pub, priv := priv }
                  else none
                | none => none
              | none => none
            | none => none
          | none => none
        else none
      | none => none
    else none
  | none => none

/-- Observable outcome of a successful `tpm2_key_decode`: the freshly
allocated buffer's bytes (private area then public area), its allocation
size (the combined length plus a 4-byte margin, line 127), the decoded
parent, the captured areas, and the updated options. -/
structure tpm2_key_decode_result where
  buffer : List Nat
  allocLen : Nat
  parent : Nat
  priv : List Nat
  pub : List Nat
  options : trusted_key_options
deriving Repr, DecidableEq

/-- Blob Codec decoder `tpm2_key_decode` (trusted_tpm2.c lines 109-140):
run the schema decoder, reject a combined area length above
`MAX_BLOB_SIZE`, then allocate and fill the output buffer and store the
decoded parent into `options->keyhandle` (line 132).  On error no buffer
is produced and the options are untouched. -/
def tpm2_key_decode (payload : trusted_key_payload)
    (options : trusted_key_options) : Except Int tpm2_key_decode_result :=
  match tpm2key_parse payload.blob with
  | none => Except.error (-EBADMSG)
  | some ctx =>
    if MAX_BLOB_SIZE < ctx.priv.length + ctx.pub.length then
      Except.error (-EINVAL)
    else
      Except.ok { buffer := ctx.priv ++ ctx.pub,
                  allocLen := ctx.priv.length + ctx.pub.length + 4,
                  parent := ctx.parent,
                  priv := ctx.priv,
                  pub := ctx.pub,
                  options := { options with keyhandle := ctx.parent } }

/-- Modelled from the spec: the external collaborators consulted by the
Load command — session establishment, command-buffer initialization, the
overflow flag accumulated by the buffer helpers, the combined result of
transmit plus response-integrity check, and the response bytes. -/
structure tpm2_load_oracle where
  start_auth_session : Int
  buf_init : Int
  overflow : Bool
  load_rc : Int
  resp : List Nat
deriving Repr, DecidableEq

/-- Outcome of `tpm2_load_cmd`, with ghost observations: whether a decode
buffer was allocated, whether it was released before return, and whether
one of the two big-endian 16-bit length-prefix reads extended past the end
of the buffer being indexed. -/
structure tpm2_load_result where
  ret : Int
  payload : trusted_key_payload
  options : trusted_key_options
  blob_handle : Option Nat
  allocated : Bool
  freed : Bool
  oob16 : Bool
deriving Repr, DecidableEq

/-- A 16-bit big-endian read at offset `i` of a buffer whose allocation
holds `allocLen` bytes: the value, and whether the read stayed in
bounds. -/
def rd16 (buf : List Nat) (allocLen i : Nat) : Nat × Bool :=
  (get_be16 (buf.drop i), decide (i + 2 ≤ allocLen))

/-- Body of `tpm2_load_cmd` after the decode attempt (trusted_tpm2.c lines
406-474).  `buf` is the buffer the `blob` pointer indexes (the decode
buffer's bytes, or the payload blob in the legacy fallback) and `allocLen`
the size of its allocation; `allocated` records whether it came from a
successful decode.  Every validation check compares against
`payload->blob_len` (`payload.blob.length` here), exactly as in the C
code; the early `return` statements do not free the decode buffer, only
the paths reaching the `out` label do. -/
def tpm2_load_body (payload : trusted_key_payload)
    (options : trusted_key_options) (buf : List Nat) (allocLen : Nat)
    (allocated : Bool) (o : tpm2_load_oracle) : tpm2_load_result :=
  let blobLen := payload.blob.length
  if options.keyhandle = 0 then
    { ret := -EINVAL, payload := payload, options := options,
      blob_handle := none, allocated := allocated, freed := false,
      oob16 := false }
  else if blobLen < 4 then
    { ret := -EINVAL, payload := payload, options := options,
      blob_handle := none, allocated := allocated, freed := false,
      oob16 := false }
  else
    let r1 := rd16 buf allocLen 0
    let private_len := r1.1
    if blobLen < private_len + 2 + 2 then
      { ret := -E2BIG, payload := payload, options := options,
        blob_handle := none, allocated := allocated, freed := false,
        oob16 := !r1.2 }
    else
      let r2 := rd16 buf allocLen (2 + private_len)
      let public_len := r2.1
      let oob := !r1.2 || !r2.2
      if blobLen < private_len + 2 + public_len + 2 then
        { ret := -E2BIG, payload := payload, options := options,
          blob_handle := none, allocated := allocated, freed := false,
          oob16 := oob }
      else
        let attrs := get_be32 (buf.drop (2 + private_len + 2 + 4))
        let payload1 := { payload with migratable :=
          if attrs &&& (TPM2_OA_FIXED_TPM ||| TPM2_OA_FIXED_PARENT) =
              TPM2_OA_FIXED_TPM ||| TPM2_OA_FIXED_PARENT then 0 else 1 }
        let blob_len := private_len + public_len + 4
        if blobLen < blob_len then
          { ret := -E2BIG, payload := payload1, options := options,
            blob_handle := none, allocated := allocated, freed := false,
            oob16 := oob }
        else if o.start_auth_session ≠ 0 then
          { ret := o.start_auth_session, payload := payload1,
            options := options, blob_handle := none, allocated := allocated,
            freed := false, oob16 := oob }
        else if o.buf_init ≠ 0 then
          { ret := o.buf_init, payload := payload1, options := options,
            blob_handle := none, allocated := allocated, freed := false,
            oob16 := oob }
        else if o.overflow then
          { ret := -E2BIG, payload := payload1, options := options,
            blob_handle := none, allocated := allocated, freed := allocated,
            oob16 := oob }
        else
          let rc := o.load_rc
          { ret := if 0 < rc then -EPERM else rc,
            payload := payload1, options := options,
            blob_handle := if rc = 0 then
              some (get_be32 (o.resp.drop TPM_HEADER_SIZE)) else none,
            allocated := allocated, freed := allocated, oob16 := oob }

/-- Load command `tpm2_load_cmd` (trusted_tpm2.c lines 385-475): attempt
the structured decode; on failure fall back to the raw payload blob and
set `old_format`.  On success the `blob` pointer indexes the freshly
allocated decode buffer (private area then public area, allocation
`priv_len + pub_len + 4`) while the validation still compares against
`payload->blob_len`. -/
def tpm2_load_cmd (payload : trusted_key_payload)
    (options : trusted_key_options) (o : tpm2_load_oracle) :
    tpm2_load_result :=
  match tpm2_key_decode payload options with
  | Except.ok d => tpm2_load_body payload d.options d.buffer d.allocLen true o
  | Except.error _ =>
    tpm2_load_body { payload with old_format := 1 } options payload.blob
      payload.blob.length false o

/-- Modelled from the spec: the external collaborators consulted by the
Unseal command — session establishment, buffer initialization, the
combined transmit plus integrity-check result, and the full response
buffer bytes (whose length is `tpm_buf_length`). -/
structure tpm2_unseal_oracle where
  start_auth_session : Int
  buf_init : Int
  unseal_rc : Int
  resp : List Nat
deriving Repr, DecidableEq

/-- Outcome of the Unseal command and of the unseal entry point. -/
structure tpm2_unseal_result where
  ret : Int
  payload : trusted_key_payload
  options : trusted_key_options
deriving Repr, DecidableEq

/-- Unseal command `tpm2_unseal_cmd` (trusted_tpm2.c lines 489-572): after
a successful exchange, read the returned secret length at the fixed offset
`TPM_HEADER_SIZE + 4`, validate it against `MIN_KEY_SIZE`/`MAX_KEY_SIZE`
and against the response buffer's actual length, then copy the secret —
splitting off the trailing migratable byte when the payload is in the
legacy format.  The outgoing authorization records (password/HMAC session
or policy-handle record) only affect command bytes handled by external
helpers and are not observable here. -/
def tpm2_unseal_cmd (payload : trusted_key_payload)
    (options : trusted_key_options) (o : tpm2_unseal_oracle) :
    tpm2_unseal_result :=
  if o.start_auth_session ≠ 0 then
    { ret := o.start_auth_session, payload := payload, options := options }
  else if o.buf_init ≠ 0 then
    { ret := o.buf_init, payload := payload, options := options }
  else
    let rc := if 0 < o.unseal_rc then -EPERM else o.unseal_rc
    if rc = 0 then
      let data_len := get_be16 (o.resp.drop (TPM_HEADER_SIZE + 4))
      if data_len < MIN_KEY_SIZE ∨ MAX_KEY_SIZE < data_len then
        { ret := -EFAULT, payload := payload, options := options }
      else if o.resp.length < TPM_HEADER_SIZE + 6 + data_len then
        { ret := -EFAULT, payload := payload, options := options }
      else
        let data := o.resp.drop (TPM_HEADER_SIZE + 6)
        if payload.old_format ≠ 0 then
          { ret := 0,
            payload := { payload with
              key := data.take (data_len - 1),
              key_len := data_len - 1,
              migratable := data.getD (data_len - 1) 0 },
            options := options }
        else
          { ret := 0,
            payload := { payload with
              key := data.take data_len, key_len := data_len },
            options := options }
    else
      { ret := rc, payload := payload, options := options }

/-- Events observable at the external collaborators during Seal, in the
order they happen. -/
inductive tpm_event where
  | get_ops
  | put_ops
  | start_session
  | end_session
  | transmit
deriving Repr, DecidableEq

/-- Modelled from the spec: the external collaborators consulted by the
Seal command — module-ownership acquisition, session establishment, the
two buffer initializations, the overflow flag, the combined result of the
Create transmit plus response-integrity check, the 32-bit blob length read
from the response, the boundary-error flag of that read, and the full
response buffer bytes. -/
structure tpm2_seal_oracle where
  try_get_ops : Int
  start_auth_session : Int
  buf_init : Int
  buf_init_sized : Int
  overflow : Bool
  create_rc : Int
  resp_blob_len : Nat
  boundary : Bool
  resp : List Nat
deriving Repr, DecidableEq

/-- Outcome of the Seal command, with the event trace of the external
collaborators. -/
structure tpm2_seal_result where
  ret : Int
  payload : trusted_key_payload
  options : trusted_key_options
  events : List tpm_event
deriving Repr, DecidableEq

/-- A 32-bit value read into a C `int` variable: values at or above
`2 ^ 31` wrap to negative. -/
def u32_to_int (v : Nat) : Int :=
  if v < 2 ^ 31 then (v : Int) else (v : Int) - 2 ^ 32

/-- The `out` epilogue of `tpm2_seal_trusted` (trusted_tpm2.c lines
352-369): destroy the buffers, map a positive module status (invalid
argument for the "bad hash algorithm" code, permission denied otherwise),
then either propagate a negative encode result or store the blob length
into the payload.  Storing `blob_len` is rendered by truncating the blob
list to that many meaningful bytes. -/
def tpm2_seal_out (rc : Int) (blob_len : Int)
    (payload : trusted_key_payload) (options : trusted_key_options)
    (events : List tpm_event) : tpm2_seal_result :=
  let rc1 := if 0 < rc then
    (if tpm2_rc_value rc.toNat = TPM2_RC_HASH then -EINVAL else -EPERM)
    else rc
  if blob_len < 0 then
    { ret := blob_len, payload := payload, options := options,
      events := events ++ [tpm_event.put_ops] }
  else
    { ret := rc1,
      payload := { payload with blob := payload.blob.take blob_len.toNat },
      options := options, events := events ++ [tpm_event.put_ops] }

/-- Seal command `tpm2_seal_trusted` (trusted_tpm2.c lines 240-370): hash
lookup and parent-handle precondition before any module access; then
module-ownership acquisition, session start, buffer setup, command
construction (buffer contents are built by external helpers and not
observable here), overflow check, the Create exchange, response blob
length validation, and the Blob Codec encode.  All exits funnel through
`tpm2_seal_out`, matching the `out`/`out_put` labels. -/
def tpm2_seal_trusted (payload : trusted_key_payload)
    (options : trusted_key_options) (o : tpm2_seal_oracle) :
    tpm2_seal_result :=
  match tpm2_hash_map.find? (fun p => p.1 = options.hash) with
  | none =>
    { ret := -EINVAL, payload := payload, options := options, events := [] }
  | some _ =>
    if options.keyhandle = 0 then
      { ret := -EINVAL, payload := payload, options := options, events := [] }
    else if o.try_get_ops ≠ 0 then
      { ret := o.try_get_ops, payload := payload, options := options,
        events := [tpm_event.get_ops] }
    else if o.start_auth_session ≠ 0 then
      { ret := o.start_auth_session, payload := payload, options := options,
        events := [tpm_event.get_ops, tpm_event.put_ops] }
    else if o.buf_init ≠ 0 then
      { ret := o.buf_init, payload := payload, options := options,
        events := [tpm_event.get_ops, tpm_event.start_session,
                   tpm_event.end_session, tpm_event.put_ops] }
    else if o.buf_init_sized ≠ 0 then
      { ret := o.buf_init_sized, payload := payload, options := options,
        events := [tpm_event.get_ops, tpm_event.start_session,
                   tpm_event.end_session, tpm_event.put_ops] }
    else if o.overflow then
      tpm2_seal_out (-E2BIG) 0 payload options
        [tpm_event.get_ops, tpm_event.start_session, tpm_event.end_session]
    else if o.create_rc ≠ 0 then
      tpm2_seal_out o.create_rc 0 payload options
        [tpm_event.get_ops, tpm_event.start_session, tpm_event.transmit]
    else
      let blob_len := u32_to_int o.resp_blob_len
      let evs := [tpm_event.get_ops, tpm_event.start_session,
                  tpm_event.transmit]
      if (MAX_BLOB_SIZE : Int) < blob_len ∨ o.boundary then
        tpm2_seal_out (-E2BIG) blob_len payload options evs
      else if (o.resp.length : Int) - (TPM_HEADER_SIZE + 4) < blob_len then
        tpm2_seal_out (-EFAULT) blob_len payload options evs
      else
        match tpm2_key_encode options (o.resp.drop (TPM_HEADER_SIZE + 4)) with
        | Except.ok bytes =>
          tpm2_seal_out 0 bytes.length { payload with blob := bytes }
            options evs
        | Except.error e => tpm2_seal_out 0 e payload options evs

/-- Unseal entry point `tpm2_unseal_trusted` (trusted_tpm2.c lines
583-605): acquire module ownership, run Load, then Unseal against the
transient handle, flushing it unconditionally (the flush is an external
call with no observable result here). -/
def tpm2_unseal_trusted (payload : trusted_key_payload)
    (options : trusted_key_options) (try_get_ops : Int)
    (lo : tpm2_load_oracle) (uo : tpm2_unseal_oracle) :
    tpm2_unseal_result :=
  if try_get_ops ≠ 0 then
    { ret := try_get_ops, payload := payload, options := options }
  else
    let L := tpm2_load_cmd payload options lo
    if L.ret ≠ 0 then
      { ret := L.ret, payload := L.payload, options := L.options }
    else
      tpm2_unseal_cmd L.payload L.options uo

/-- Plain big-endian value of a byte list (no wrap-around), the reference
point for the accumulating parent callback. -/
def beVal (l : List Nat) : Nat :=
  l.foldl (fun a b => a * 256 + b) 0

theorem beVal_cons_zero (l : List Nat) : beVal (0 :: l) = beVal l := by
  simp [beVal]

theorem beVal_dropWhile_zero (l : List Nat) :
    beVal (l.dropWhile (fun b => b == 0)) = beVal l := by
  induction l with
  | nil => rfl
  | cons b t ih =>
    by_cases hb : b = 0
    · subst hb
      simpa [List.dropWhile, beVal_cons_zero] using ih
    · have hb2 : (b == 0) = false := by simpa using hb
      simp [List.dropWhile, hb2]

theorem beVal_be64 (v : Nat) (h : v < 2 ^ 64) : beVal (be64_bytes v) = v := by
  have h56 : v / 2 ^ 56 % 256 = v / 2 ^ 56 := by
    apply Nat.mod_eq_of_lt
    omega
  have step : ∀ j : Nat, v / (2 ^ j * 256) * 256 + v / 2 ^ j % 256 = v / 2 ^ j := by
    intro j
    rw [← Nat.div_div_eq_div_mul]
    omega
  have e48 : (2 : Nat) ^ 56 = 2 ^ 48 * 256 := by norm_num
  have e40 : (2 : Nat) ^ 48 = 2 ^ 40 * 256 := by norm_num
  have e32 : (2 : Nat) ^ 40 = 2 ^ 32 * 256 := by norm_num
  have e24 : (2 : Nat) ^ 32 = 2 ^ 24 * 256 := by norm_num
  have e16 : (2 : Nat) ^ 24 = 2 ^ 16 * 256 := by norm_num
  have e8 : (2 : Nat) ^ 16 = 2 ^ 8 * 256 := by norm_num
  have e0 : (2 : Nat) ^ 8 = 2 ^ 0 * 256 := by norm_num
  simp only [beVal, be64_bytes, List.foldl, Nat.zero_mul, Nat.zero_add]
  rw [h56, e48, step 48, e40, step 40, e32, step 32, e24, step 24,
    e16, step 16, e8, step 8]
  have h256 : (2 : Nat) ^ 8 = 256 := by norm_num
  rw [h256]
  omega

theorem beVal_int_content (v : Nat) (h : v < 2 ^ 64) :
    beVal (asn1_int_content v) = v := by
  have hv : v % 2 ^ 64 = v := Nat.mod_eq_of_lt h
  have hbase : beVal ((be64_bytes (v % 2 ^ 64)).dropWhile (fun b => b == 0)) = v := by
    rw [beVal_dropWhile_zero, hv, beVal_be64 v h]
  unfold asn1_int_content
  split
  · next heq =>
    rw [heq] at hbase
    simp only [beVal, List.foldl] at hbase ⊢
    omega
  · next b bs heq =>
    rw [heq] at hbase
    by_cases hb : 128 ≤ b
    · simp only [if_pos hb, beVal_cons_zero]
      exact hbase
    · simp only [if_neg hb]
      exact hbase

theorem int_content_bytes_lt (v : Nat) : ∀ b ∈ asn1_int_content v, b < 256 := by
  have hall : ∀ b ∈ be64_bytes (v % 2 ^ 64), b < 256 := by
    intro b hb
    simp only [be64_bytes, List.mem_cons, List.not_mem_nil, or_false] at hb
    rcases hb with h | h | h | h | h | h | h | h <;> subst h <;>
      exact Nat.mod_lt _ (by norm_num)
  have hsub : ∀ b ∈ (be64_bytes (v % 2 ^ 64)).dropWhile (fun b => b == 0),
      b < 256 := by
    intro b hb
    exact hall b (List.Sublist.subset (List.dropWhile_sublist _) hb)
  unfold asn1_int_content
  split
  · intro b hb
    simp only [List.mem_singleton] at hb
    omega
  · next b bs heq =>
    have hmem : ∀ x ∈ b :: bs, x < 256 := by
      intro x hx
      exact hsub x (by rw [heq]; exact hx)
    intro c hc
    by_cases hb : 128 ≤ b
    · simp only [if_pos hb, List.mem_cons] at hc
      rcases hc with h | h | h
      · omega
      · exact hmem c (by simp [h])
      · exact hmem c (List.mem_cons_of_mem _ h)
    · simp only [if_neg hb] at hc
      exact hmem c hc

theorem int_content_length_le (v : Nat) : (asn1_int_content v).length ≤ 9 := by
  have hlen : ((be64_bytes (v % 2 ^ 64)).dropWhile (fun b => b == 0)).length ≤ 8 := by
    calc ((be64_bytes (v % 2 ^ 64)).dropWhile (fun b => b == 0)).length
        ≤ (be64_bytes (v % 2 ^ 64)).length :=
          (List.dropWhile_sublist _).length_le
      _ = 8 := by simp [be64_bytes]
  unfold asn1_int_content
  split
  · simp
  · next b bs heq =>
    rw [heq] at hlen
    by_cases hb : 128 ≤ b
    · simp only [if_pos hb]
      simpa using hlen
    · simp only [if_neg hb]
      simpa using Nat.le_succ_of_le hlen

theorem foldl_parent_spec (l : List Nat) (h : ∀ b ∈ l, b < 256) :
    ∀ a a2 : Nat, a = a2 % 2 ^ 32 →
    l.foldl (fun p b => p * 256 % 2 ^ 32 ||| b) a =
    l.foldl (fun a b => a * 256 + b) a2 % 2 ^ 32 := by
  induction l with
  | nil => intro a a2 ha; simpa using ha
  | cons b t ih =>
    intro a a2 ha
    have hb : b < 256 := h b (List.mem_cons_self _ _)
    have ht : ∀ c ∈ t, c < 256 := fun c hc => h c (List.mem_cons_of_mem _ hc)
    simp only [List.foldl]
    apply ih ht
    have h1 : a * 256 % 2 ^ 32 = a2 % 2 ^ 24 * 256 := by
      rw [ha]
      have : (2 : Nat) ^ 32 = 2 ^ 24 * 256 := by norm_num
      rw [this]
      rw [Nat.mod_mul_mod]
      exact Nat.mul_mod_mul_right 256 a2 (2 ^ 24)
    have h2 : a2 % 2 ^ 24 * 256 ||| b = a2 % 2 ^ 24 * 256 + b := by
      have hform : a2 % 2 ^ 24 * 256 = 2 ^ 8 * (a2 % 2 ^ 24) := by ring
      rw [hform, ← Nat.mul_add_lt_is_or (by omega : b < 2 ^ 8)]
    rw [h1, h2]
    have h3 : a2 % 2 ^ 24 < 2 ^ 24 := Nat.mod_lt _ (by norm_num)
    omega

/-- C10: the parent-handle field callback `tpm2_key_parent` never fails
(status 0) and stores the big-endian value of the field's bytes reduced
modulo `2 ^ 32`, so a field longer than four bytes is silently truncated
to its low 32 bits rather than rejected. -/
theorem tpm2_key_parent_truncates (value : List Nat)
    (h : ∀ b ∈ value, b < 256) :
    tpm2_key_parent value = (beVal value % 2 ^ 32, 0) := by
  unfold tpm2_key_parent beVal
  rw [foldl_parent_spec value h 0 0 (by norm_num)]

/-- Witness for C10: a five-byte field whose big-endian value is
`2 ^ 32 + 5` is folded to 5 with status 0. -/
theorem tpm2_key_parent_truncates_witness :
    tpm2_key_parent [1, 0, 0, 0, 5] = (5, 0) := by
  have h := tpm2_key_parent_truncates [1, 0, 0, 0, 5] (by decide)
  rw [h]
  norm_num [beVal]

theorem asn1_encode_length_len_le (n : Nat) :
    1 ≤ (asn1_encode_length n).length ∧ (asn1_encode_length n).length ≤ 5 := by
  unfold asn1_encode_length
  split_ifs <;> simp

theorem asn1_parse_len_encode (n : Nat) (h : n < 65536) (r : List Nat) :
    asn1_parse_len (asn1_encode_length n ++ r) = some (n, r) := by
  unfold asn1_encode_length
  by_cases h1 : n ≤ 0x7f
  · simp only [if_pos h1, List.cons_append, List.nil_append, asn1_parse_len]
    rw [if_pos (by omega)]
  · by_cases h2 : n ≤ 0xff
    · simp only [if_neg h1, if_pos h2, List.cons_append, List.nil_append,
        asn1_parse_len]
      norm_num
    · have h3 : n ≤ 0xffff := by omega
      simp only [if_neg h1, if_neg h2, if_pos h3, List.cons_append,
        List.nil_append, asn1_parse_len]
      norm_num
      omega

theorem asn1_parse_tlv_encode (tag : Nat) (c r : List Nat)
    (h : c.length < 65536) :
    asn1_parse_tlv tag (asn1_tlv tag c ++ r) = some (c, r) := by
  have hl := asn1_parse_len_encode c.length h (c ++ r)
  unfold asn1_tlv
  rw [List.cons_append, List.append_assoc]
  simp only [asn1_parse_tlv, hl, if_pos rfl]
  have hle : c.length ≤ (c ++ r).length := by simp
  simp [hle, List.take_left, List.drop_left]

theorem asn1_parse_optional_auth_skip (b : Nat) (l : List Nat)
    (hb : b ≠ 0xA0) :
    asn1_parse_optional_auth (b :: l) = some (b :: l) := by
  unfold asn1_parse_optional_auth
  split
  · next heq => rw [List.cons.injEq] at heq; omega
  · rfl

theorem asn1_parse_optional_auth_empty (r : List Nat) :
    asn1_parse_optional_auth (emptyAuth_tlv ++ r) = some r := by
  have hshape : emptyAuth_tlv ++ r = 0xA0 :: ([3, 0x01, 0x01, 0x01] ++ r) := by
    simp [emptyAuth_tlv, asn1_tlv, asn1_encode_length]
  have hparse : asn1_parse_tlv 0xA0 (0xA0 :: ([3, 0x01, 0x01, 0x01] ++ r)) =
      some ([0x01, 0x01, 0x01], r) := by
    rw [← hshape]
    exact asn1_parse_tlv_encode 0xA0 [0x01, 0x01, 0x01] r (by norm_num)
  rw [hshape]
  simp only [asn1_parse_optional_auth, hparse]

theorem tpm2key_parse_encoded (kh : Nat) (auth pubA privA : List Nat)
    (hauth : auth = [] ∨ auth = emptyAuth_tlv)
    (hpub : pubA.length ≤ 512) (hpriv : privA.length ≤ 512) :
    tpm2key_parse (asn1_tlv 0x30 (tpm2key_oid_tlv ++ auth ++
      asn1_tlv 0x02 (asn1_int_content kh) ++ asn1_tlv 0x04 pubA ++
      asn1_tlv 0x04 privA)) =
    some { parent := (tpm2_key_parent (asn1_int_content kh)).1,
           pub := pubA, priv := privA } := by
  have hic_len : (asn1_int_content kh).length < 65536 := by
    have := int_content_length_le kh
    omega
  have hinner_len : (tpm2key_oid_tlv ++ (auth ++
      (asn1_tlv 0x02 (asn1_int_content kh) ++ (asn1_tlv 0x04 pubA ++
      asn1_tlv 0x04 privA)))).length < 65536 := by
    have hb1 := asn1_encode_length_len_le (asn1_int_content kh).length
    have hb2 := asn1_encode_length_len_le pubA.length
    have hb3 := asn1_encode_length_len_le privA.length
    have hauthlen : auth.length ≤ 5 := by
      rcases hauth with h | h <;> subst h <;> simp [emptyAuth_tlv, asn1_tlv,
        asn1_encode_length]
    have hicl : (asn1_int_content kh).length ≤ 9 := int_content_length_le kh
    have hoid : tpm2key_oid_tlv.length = 8 := by decide
    simp only [List.length_append, asn1_tlv, List.length_cons]
    omega
  have houter : asn1_parse_tlv 0x30 (asn1_tlv 0x30 (tpm2key_oid_tlv ++ (auth ++
      (asn1_tlv 0x02 (asn1_int_content kh) ++ (asn1_tlv 0x04 pubA ++
      asn1_tlv 0x04 privA))))) = some (tpm2key_oid_tlv ++ (auth ++
      (asn1_tlv 0x02 (asn1_int_content kh) ++ (asn1_tlv 0x04 pubA ++
      asn1_tlv 0x04 privA))), []) := by
    have h := asn1_parse_tlv_encode 0x30 (tpm2key_oid_tlv ++ (auth ++
      (asn1_tlv 0x02 (asn1_int_content kh) ++ (asn1_tlv 0x04 pubA ++
      asn1_tlv 0x04 privA)))) [] hinner_len
    simpa using h
  have hoid_tlv : asn1_parse_tlv 0x06 (tpm2key_oid_tlv ++ (auth ++
      (asn1_tlv 0x02 (asn1_int_content kh) ++ (asn1_tlv 0x04 pubA ++
      asn1_tlv 0x04 privA)))) =
      some (tpm2SealedData_oid, auth ++ (asn1_tlv 0x02 (asn1_int_content kh) ++
        (asn1_tlv 0x04 pubA ++ asn1_tlv 0x04 privA))) := by
    simp only [tpm2key_oid_tlv]
    exact asn1_parse_tlv_encode 0x06 tpm2SealedData_oid _
      (by norm_num [tpm2SealedData_oid])
  have hauth_step : asn1_parse_optional_auth (auth ++
      (asn1_tlv 0x02 (asn1_int_content kh) ++ (asn1_tlv 0x04 pubA ++
      asn1_tlv 0x04 privA))) =
      some (asn1_tlv 0x02 (asn1_int_content kh) ++ (asn1_tlv 0x04 pubA ++
        asn1_tlv 0x04 privA)) := by
    rcases hauth with h | h
    · subst h
      rw [List.nil_append]
      have hshape : asn1_tlv 0x02 (asn1_int_content kh) ++
          (asn1_tlv 0x04 pubA ++ asn1_tlv 0x04 privA) =
          0x02 :: (asn1_encode_length (asn1_int_content kh).length ++
          asn1_int_content kh ++ (asn1_tlv 0x04 pubA ++
          asn1_tlv 0x04 privA)) := by
        simp [asn1_tlv]
      rw [hshape]
      exact asn1_parse_optional_auth_skip 0x02 _ (by norm_num)
    · subst h
      exact asn1_parse_optional_auth_empty _
  have hint : asn1_parse_tlv 0x02 (asn1_tlv 0x02 (asn1_int_content kh) ++
      (asn1_tlv 0x04 pubA ++ asn1_tlv 0x04 privA)) =
      some (asn1_int_content kh, asn1_tlv 0x04 pubA ++ asn1_tlv 0x04 privA) :=
    asn1_parse_tlv_encode _ _ _ hic_len
  have hpub2 : asn1_parse_tlv 0x04 (asn1_tlv 0x04 pubA ++
      asn1_tlv 0x04 privA) = some (pubA, asn1_tlv 0x04 privA) :=
    asn1_parse_tlv_encode _ _ _ (by omega)
  have hpriv2 : asn1_parse_tlv 0x04 (asn1_tlv 0x04 privA) =
      some (privA, []) := by
    have h := asn1_parse_tlv_encode 0x04 privA [] (by omega)
    simpa using h
  have htype : tpm2_key_type tpm2SealedData_oid = 0 := by
    simp [tpm2_key_type]
  simp only [List.append_assoc, tpm2key_parse, houter, hoid_tlv, htype,
    hauth_step, hint, hpub2, hpriv2]
  simp

/-- C1 (amended): the Blob Codec round-trip holds exactly on the domain
where encoding succeeds: whenever `tpm2_key_encode` accepts a
(parent, public, private) triple — which requires the full structured
encoding, content plus ASN.1 overhead, to fit in `MAX_BLOB_SIZE` —
decoding the produced blob succeeds and yields back the identical parent
value and byte-identical private and public areas (each area carrying its
2-byte length prefix, combined content at most `MAX_BLOB_SIZE`). -/
theorem tpm2_key_encode_decode_roundtrip
    (options options2 : trusted_key_options) (payload2 : trusted_key_payload)
    (privBody pubBody blob : List Nat)
    (hkh : options.keyhandle < 2 ^ 32)
    (hsize : privBody.length + 2 + (pubBody.length + 2) ≤ MAX_BLOB_SIZE)
    (hok : tpm2_key_encode options
        (privBody.length / 256 :: privBody.length % 256 ::
          (privBody ++ (pubBody.length / 256 :: pubBody.length % 256 ::
            pubBody))) = Except.ok blob) :
    tpm2_key_decode { payload2 with blob := blob } options2 =
    Except.ok
      { buffer := (privBody.length / 256 :: privBody.length % 256 ::
            privBody) ++
          (pubBody.length / 256 :: pubBody.length % 256 :: pubBody),
        allocLen := privBody.length + 2 + (pubBody.length + 2) + 4,
        parent := options.keyhandle,
        priv := privBody.length / 256 :: privBody.length % 256 :: privBody,
        pub := pubBody.length / 256 :: pubBody.length % 256 :: pubBody,
        options := { options2 with keyhandle := options.keyhandle } } := by
  have hMBS : MAX_BLOB_SIZE = 512 := rfl
  set p := privBody.length with hp
  set q := pubBody.length with hq
  set privArea := p / 256 :: p % 256 :: privBody with hPA
  set pubArea := q / 256 :: q % 256 :: pubBody with hQA
  set src := p / 256 :: p % 256 ::
    (privBody ++ (q / 256 :: q % 256 :: pubBody)) with hsrc0
  have hsrc : src = privArea ++ pubArea := by
    rw [hsrc0, hPA, hQA]
    simp
  have hPAlen : privArea.length = p + 2 := by
    rw [hPA]
    simp
  have hQAlen : pubArea.length = q + 2 := by
    rw [hQA]
    simp
  have h16a : get_be16 src = p := by
    rw [hsrc0]
    simp [get_be16]
    omega
  have hpl : (get_be16 src + 2) % 65536 = p + 2 := by
    rw [h16a]
    apply Nat.mod_eq_of_lt
    omega
  have htake : src.take (p + 2) = privArea := by
    rw [hsrc]
    exact List.take_left' hPAlen
  have hdrop : src.drop (p + 2) = pubArea := by
    rw [hsrc]
    exact List.drop_left' hPAlen
  have h16b : get_be16 (src.drop (p + 2)) = q := by
    rw [hdrop, hQA]
    simp [get_be16]
    omega
  have hql : (get_be16 (src.drop (p + 2)) + 2) % 65536 = q + 2 := by
    rw [h16b]
    apply Nat.mod_eq_of_lt
    omega
  have htake2 : (src.drop (p + 2)).take (q + 2) = pubArea := by
    rw [hdrop, ← hQAlen]
    exact List.take_length pubArea
  set auth := if options.blobauth_len = 0 then emptyAuth_tlv else []
    with hauthdef
  have hauth : auth = [] ∨ auth = emptyAuth_tlv := by
    rw [hauthdef]
    split_ifs
    · exact Or.inr rfl
    · exact Or.inl rfl
  have hauthlen : auth.length ≤ 5 := by
    rcases hauth with h | h <;> rw [h] <;>
      simp [emptyAuth_tlv, asn1_tlv, asn1_encode_length]
  simp only [tpm2_key_encode] at hok
  rw [← hauthdef, hpl, hql, htake, htake2] at hok
  have hguard : ¬(4096 < (tpm2key_oid_tlv ++ auth).length + (q + 2) +
      (p + 2) + 14) := by
    have hoidlen : tpm2key_oid_tlv.length = 8 := by decide
    simp only [List.length_append]
    omega
  rw [if_neg hguard] at hok
  by_cases hcap : (asn1_tlv 0x30 (tpm2key_oid_tlv ++ auth ++
      asn1_tlv 0x02 (asn1_int_content options.keyhandle) ++
      asn1_tlv 0x04 pubArea ++ asn1_tlv 0x04 privArea)).length ≤
      MAX_BLOB_SIZE
  · rw [if_pos hcap] at hok
    rw [Except.ok.injEq] at hok
    have hparse := tpm2key_parse_encoded options.keyhandle auth pubArea
      privArea hauth (by omega) (by omega)
    have hparent : (tpm2_key_parent
        (asn1_int_content options.keyhandle)).1 = options.keyhandle := by
      have hfold := foldl_parent_spec (asn1_int_content options.keyhandle)
        (int_content_bytes_lt _) 0 0 (by norm_num)
      have hbv := beVal_int_content options.keyhandle (by omega)
      simp only [tpm2_key_parent]
      rw [hfold]
      simp only [beVal] at hbv
      rw [hbv]
      exact Nat.mod_eq_of_lt hkh
    rw [← hok]
    simp only [tpm2_key_decode, hparse]
    rw [if_neg (by omega)]
    rw [Except.ok.injEq]
    rw [hparent, hPAlen, hQAlen]
  · rw [if_neg hcap] at hok
    exact Except.noConfusion hok

/-- Options used by the boundary counterexample: parent handle 1,
non-empty blob authorization. -/
def rt_cex_options : trusted_key_options :=
  { keyhandle := 1, keyauth := [], blobauth := [0x42], blobauth_len := 1,
    policydigest := [], policydigest_len := 0, policyhandle := 0, hash := 4 }

/-- Module response for the boundary counterexample: a 256-byte private
area (2-byte prefix declaring 254 content bytes) followed by a 256-byte
public area, combined content exactly `MAX_BLOB_SIZE`. -/
def rt_cex_src : List Nat :=
  0 :: 254 :: (List.replicate 254 0xAB ++ (0 :: 254 :: List.replicate 254 0xCD))

set_option maxRecDepth 100000 in
/-- Counterexample to C1 as stated: a triple whose combined content is
exactly `MAX_BLOB_SIZE` (private area 256 bytes, public area 256 bytes) is
rejected by `tpm2_key_encode` with a negative error — the ASN.1 overhead
no longer fits the `MAX_BLOB_SIZE` destination — so encode-then-decode
does not succeed for all sizes up to `MAX_BLOB_SIZE`. -/
theorem tpm2_key_encode_maxblob_fails :
    (254 + 2) + (254 + 2) = MAX_BLOB_SIZE ∧
    tpm2_key_encode rt_cex_options rt_cex_src = Except.error (-EINVAL) := by
  constructor
  · rfl
  · rfl

/-- Options used by the round-trip witness: a large parent handle and an
empty blob authorization (so the `emptyAuth` tag is present). -/
def rt_w_options : trusted_key_options :=
  { keyhandle := 0x81000001, keyauth := [], blobauth := [], blobauth_len := 0,
    policydigest := [], policydigest_len := 0, policyhandle := 0, hash := 4 }

/-- The blob produced by encoding the witness triple. -/
def rt_w_blob : List Nat :=
  match tpm2_key_encode rt_w_options
      (3 / 256 :: 3 % 256 :: ([1, 2, 3] ++ (4 / 256 :: 4 % 256 :: [9, 8, 7, 6]))) with
  | Except.ok b => b
  | Except.error _ => []

/-- Decode-side inputs for the round-trip witness. -/
def rt_w_payload : trusted_key_payload :=
  { key := [], key_len := 0, blob := [], migratable := 0, old_format := 0 }

def rt_w_options2 : trusted_key_options :=
  { keyhandle := 7, keyauth := [], blobauth := [], blobauth_len := 0,
    policydigest := [], policydigest_len := 0, policyhandle := 0, hash := 2 }

/-- Witness for C1 (amended): a concrete 3-byte private body and 4-byte
public body under parent handle 0x81000001 encode successfully and decode
back to the identical parent and byte-identical areas. -/
theorem tpm2_key_encode_decode_roundtrip_witness :
    tpm2_key_decode { rt_w_payload with blob := rt_w_blob } rt_w_options2 =
    Except.ok
      { buffer := (3 / 256 :: 3 % 256 :: [1, 2, 3]) ++
          (4 / 256 :: 4 % 256 :: [9, 8, 7, 6]),
        allocLen := 3 + 2 + (4 + 2) + 4,
        parent := 0x81000001,
        priv := 3 / 256 :: 3 % 256 :: [1, 2, 3],
        pub := 4 / 256 :: 4 % 256 :: [9, 8, 7, 6],
        options := { rt_w_options2 with keyhandle := 0x81000001 } } :=
  tpm2_key_encode_decode_roundtrip rt_w_options rt_w_options2 rt_w_payload
    [1, 2, 3] [9, 8, 7, 6] rt_w_blob (by norm_num [rt_w_options])
    (by decide) rfl


set_option maxHeartbeats 1000000 in
theorem tpm2_load_body_short (payload : trusted_key_payload)
    (options : trusted_key_options) (buf : List Nat) (allocLen : Nat)
    (allocated : Bool) (o : tpm2_load_oracle)
    (h4 : payload.blob.length < 4) :
    (tpm2_load_body payload options buf allocLen allocated o).ret =
    -EINVAL := by
  simp only [tpm2_load_body]
  split_ifs <;> first | rfl | (exfalso; omega)

set_option maxHeartbeats 1000000 in
theorem tpm2_load_body_options (payload : trusted_key_payload)
    (options : trusted_key_options) (buf : List Nat) (allocLen : Nat)
    (allocated : Bool) (o : tpm2_load_oracle) :
    (tpm2_load_body payload options buf allocLen allocated o).options =
    options := by
  simp only [tpm2_load_body]
  split_ifs <;> rfl

set_option maxHeartbeats 1000000 in
theorem tpm2_load_body_oob_legacy (payload : trusted_key_payload)
    (options : trusted_key_options) (allocated : Bool)
    (o : tpm2_load_oracle) :
    (tpm2_load_body payload options payload.blob payload.blob.length
      allocated o).oob16 = false := by
  simp only [tpm2_load_body, rd16, List.drop_zero]
  split_ifs <;> first | rfl | (simp; omega)

set_option maxHeartbeats 1000000 in
theorem tpm2_load_body_reject1 (payload : trusted_key_payload)
    (options : trusted_key_options) (buf : List Nat) (allocLen : Nat)
    (allocated : Bool) (o : tpm2_load_oracle)
    (hk : ¬options.keyhandle = 0) (h4 : 4 ≤ payload.blob.length)
    (hgt : payload.blob.length < get_be16 buf + 2 + 2) :
    (tpm2_load_body payload options buf allocLen allocated o).ret =
    -E2BIG := by
  simp only [tpm2_load_body, rd16, List.drop_zero]
  rw [if_neg hk, if_neg (by omega : ¬payload.blob.length < 4), if_pos hgt]

set_option maxHeartbeats 1000000 in
theorem tpm2_load_body_reject2 (payload : trusted_key_payload)
    (options : trusted_key_options) (buf : List Nat) (allocLen : Nat)
    (allocated : Bool) (o : tpm2_load_oracle)
    (hk : ¬options.keyhandle = 0) (h4 : 4 ≤ payload.blob.length)
    (hle : get_be16 buf + 2 + 2 ≤ payload.blob.length)
    (hgt2 : payload.blob.length < get_be16 buf + 2 +
      get_be16 (buf.drop (2 + get_be16 buf)) + 2) :
    (tpm2_load_body payload options buf allocLen allocated o).ret =
    -E2BIG := by
  simp only [tpm2_load_body, rd16, List.drop_zero]
  rw [if_neg hk, if_neg (by omega : ¬payload.blob.length < 4),
    if_neg (by omega : ¬payload.blob.length < get_be16 buf + 2 + 2),
    if_pos hgt2]

set_option maxHeartbeats 1000000 in
theorem tpm2_load_body_migratable (payload : trusted_key_payload)
    (options : trusted_key_options) (buf : List Nat) (allocLen : Nat)
    (allocated : Bool) (o : tpm2_load_oracle)
    (hk : ¬options.keyhandle = 0) (h4 : 4 ≤ payload.blob.length)
    (hle : get_be16 buf + 2 + 2 ≤ payload.blob.length)
    (hle2 : get_be16 buf + 2 +
      get_be16 (buf.drop (2 + get_be16 buf)) + 2 ≤ payload.blob.length) :
    (tpm2_load_body payload options buf allocLen allocated o).payload.migratable =
    (if get_be32 (buf.drop (2 + get_be16 buf + 2 + 4)) &&&
        (TPM2_OA_FIXED_TPM ||| TPM2_OA_FIXED_PARENT) =
        TPM2_OA_FIXED_TPM ||| TPM2_OA_FIXED_PARENT then 0 else 1) := by
  simp only [tpm2_load_body, rd16, List.drop_zero]
  rw [if_neg hk, if_neg (by omega : ¬payload.blob.length < 4),
    if_neg (by omega : ¬payload.blob.length < get_be16 buf + 2 + 2),
    if_neg (by omega : ¬payload.blob.length < get_be16 buf + 2 +
      get_be16 (buf.drop (2 + get_be16 buf)) + 2)]
  split_ifs <;> rfl

/-- C2 (amended): `tpm2_key_decode` rejects with `-EINVAL`, producing no
output buffer, any blob whose decoded private plus public length exceeds
`MAX_BLOB_SIZE`; `tpm2_load_cmd` rejects any input with `blob_len < 4`;
and the declared-length checks are made against `payload->blob_len`: on
the legacy path (structured decode failed) this keeps both 16-bit
length-prefix reads inside the buffer being indexed and rejects with
`-E2BIG` any declared length that would extend past `blob_len`.  (When a
structured decode succeeded, the same checks still compare against
`payload->blob_len` rather than the decode buffer's allocation, so the
second prefix read can extend past that buffer — see the
counterexample.) -/
theorem tpm2_bounds_validation (payload : trusted_key_payload)
    (options : trusted_key_options) (o : tpm2_load_oracle) :
    (∀ ctx, tpm2key_parse payload.blob = some ctx →
      MAX_BLOB_SIZE < ctx.priv.length + ctx.pub.length →
      tpm2_key_decode payload options = Except.error (-EINVAL))
    ∧ (payload.blob.length < 4 →
        (tpm2_load_cmd payload options o).ret = -EINVAL)
    ∧ (tpm2key_parse payload.blob = none →
        (tpm2_load_cmd payload options o).oob16 = false
        ∧ (¬options.keyhandle = 0 → 4 ≤ payload.blob.length →
            (payload.blob.length < get_be16 payload.blob + 2 + 2 →
              (tpm2_load_cmd payload options o).ret = -E2BIG)
            ∧ (get_be16 payload.blob + 2 + 2 ≤ payload.blob.length →
               payload.blob.length < get_be16 payload.blob + 2 +
                 get_be16 (payload.blob.drop (2 + get_be16 payload.blob)) +
                 2 →
              (tpm2_load_cmd payload options o).ret = -E2BIG))) := by
  refine ⟨?_, ?_, ?_⟩
  · intro ctx hp hgt
    simp only [tpm2_key_decode, hp]
    rw [if_pos hgt]
  · intro h4
    unfold tpm2_load_cmd
    split
    · exact tpm2_load_body_short _ _ _ _ _ _ h4
    · exact tpm2_load_body_short _ _ _ _ _ _ h4
  · intro hparse
    have hdec : tpm2_key_decode payload options =
        Except.error (-EBADMSG) := by
      simp only [tpm2_key_decode, hparse]
    refine ⟨?_, ?_⟩
    · simp only [tpm2_load_cmd, hdec]
      exact tpm2_load_body_oob_legacy _ _ _ _
    · intro hk h4
      refine ⟨?_, ?_⟩
      · intro hgt
        simp only [tpm2_load_cmd, hdec]
        exact tpm2_load_body_reject1 _ _ _ _ _ _ hk h4 hgt
      · intro hle hgt2
        simp only [tpm2_load_cmd, hdec]
        exact tpm2_load_body_reject2 _ _ _ _ _ _ hk h4 hle hgt2

/-- An oracle whose external collaborators all succeed. -/
def zero_load_oracle : tpm2_load_oracle :=
  { start_auth_session := 0, buf_init := 0, overflow := false,
    load_rc := 0, resp := [] }

/-- A two-byte payload blob, shorter than the two mandatory length
prefixes. -/
def c2w_payload : trusted_key_payload :=
  { key := [], key_len := 0, blob := [1, 2], migratable := 0,
    old_format := 0 }

def c2w_options : trusted_key_options :=
  { keyhandle := 5, keyauth := [], blobauth := [], blobauth_len := 0,
    policydigest := [], policydigest_len := 0, policyhandle := 0, hash := 2 }

/-- Witness for C2: a two-byte blob is rejected by Load with
`-EINVAL`. -/
theorem tpm2_bounds_validation_witness :
    (tpm2_load_cmd c2w_payload c2w_options zero_load_oracle).ret =
    -EINVAL :=
  (tpm2_bounds_validation c2w_payload c2w_options zero_load_oracle).2.1
    (by decide)

/-- A well-formed structured blob whose private octet string content is
the two bytes 0x00 0x10, declaring a 16-byte private area that does not
exist in the 8-byte decode buffer. -/
def c2cex_payload : trusted_key_payload :=
  { key := [], key_len := 0,
    blob := [0x30, 19, 0x06, 6, 0x67, 0x81, 0x05, 0x0A, 0x01, 0x05,
             0x02, 1, 1, 0x04, 2, 0, 0, 0x04, 2, 0, 16],
    migratable := 0, old_format := 0 }

def c2cex_options : trusted_key_options :=
  { keyhandle := 7, keyauth := [], blobauth := [], blobauth_len := 0,
    policydigest := [], policydigest_len := 0, policyhandle := 0, hash := 2 }

/-- Counterexample to C2 as stated: on this successfully decoded blob the
declared private length (16) passes the check against
`payload->blob_len` (21), yet the second 16-bit prefix read is at offset
18 of a decode buffer whose allocation is only 8 bytes — bytes past the
end of the buffer being indexed are read before any rejection. -/
theorem tpm2_load_cmd_oob16_cex :
    (tpm2_load_cmd c2cex_payload c2cex_options zero_load_oracle).oob16 =
      true ∧
    (tpm2_load_cmd c2cex_payload c2cex_options zero_load_oracle).allocated =
      true := by
  constructor
  · rfl
  · rfl

/-- A well-formed structured blob (parent handle 1) whose private octet
string content 0xFF 0xFF declares a private length failing the `-E2BIG`
validation of `tpm2_load_cmd`. -/
def c4_payload : trusted_key_payload :=
  { key := [], key_len := 0,
    blob := [0x30, 19, 0x06, 6, 0x67, 0x81, 0x05, 0x0A, 0x01, 0x05,
             0x02, 1, 1, 0x04, 2, 0, 0, 0x04, 2, 0xFF, 0xFF],
    migratable := 0, old_format := 0 }

/-- C4: evaluation of `tpm2_load_cmd` at the failing input — the decode
succeeds and allocates a buffer, the validation then fails with `-E2BIG`
through an early `return`, and the allocated buffer is not released
before return, contradicting the claimed release on every exit path. -/
theorem tpm2_load_cmd_leaks_decode_buffer :
    (tpm2_load_cmd c4_payload c2cex_options zero_load_oracle).ret =
      -E2BIG ∧
    (tpm2_load_cmd c4_payload c2cex_options zero_load_oracle).allocated =
      true ∧
    (tpm2_load_cmd c4_payload c2cex_options zero_load_oracle).freed =
      false := by
  refine ⟨rfl, rfl, rfl⟩

/-- C5: migratability derivation in the body of `tpm2_load_cmd` (the code
both the decoded and the legacy path fall through to): once the two
length checks pass, `payload->migratable` is set to 0 exactly when the
32-bit attribute field read at offset 4 of the public area has both
`TPM2_OA_FIXED_TPM` and `TPM2_OA_FIXED_PARENT` set, and to 1 for every
other bit combination. -/
theorem tpm2_load_migratable_derivation (payload : trusted_key_payload)
    (options : trusted_key_options) (buf : List Nat) (allocLen : Nat)
    (allocated : Bool) (o : tpm2_load_oracle)
    (hk : ¬options.keyhandle = 0) (h4 : 4 ≤ payload.blob.length)
    (hle : get_be16 buf + 2 + 2 ≤ payload.blob.length)
    (hle2 : get_be16 buf + 2 + get_be16 (buf.drop (2 + get_be16 buf)) + 2 ≤
      payload.blob.length) :
    ((tpm2_load_body payload options buf allocLen allocated
        o).payload.migratable = 0 ↔
      get_be32 (buf.drop (2 + get_be16 buf + 2 + 4)) &&&
        (TPM2_OA_FIXED_TPM ||| TPM2_OA_FIXED_PARENT) =
        TPM2_OA_FIXED_TPM ||| TPM2_OA_FIXED_PARENT)
    ∧ ((tpm2_load_body payload options buf allocLen allocated
        o).payload.migratable = 1 ↔
      ¬get_be32 (buf.drop (2 + get_be16 buf + 2 + 4)) &&&
        (TPM2_OA_FIXED_TPM ||| TPM2_OA_FIXED_PARENT) =
        TPM2_OA_FIXED_TPM ||| TPM2_OA_FIXED_PARENT) := by
  have h := tpm2_load_body_migratable payload options buf allocLen
    allocated o hk h4 hle hle2
  rw [h]
  by_cases hc : get_be32 (buf.drop (2 + get_be16 buf + 2 + 4)) &&&
      (TPM2_OA_FIXED_TPM ||| TPM2_OA_FIXED_PARENT) =
      TPM2_OA_FIXED_TPM ||| TPM2_OA_FIXED_PARENT
  · simp [hc]
  · simp [hc]

/-- A legacy-format blob: 2-byte private area, 8-byte public area whose
attribute field (offset 4 of the public area) has exactly the fixedTPM
and fixedParent bits set. -/
def c5w_payload : trusted_key_payload :=
  { key := [], key_len := 0,
    blob := [0, 2, 9, 9, 0, 8, 0, 0x0B, 0, 0, 0, 0, 0, 18],
    migratable := 1, old_format := 0 }

/-- Witness for C5: on the concrete legacy blob whose attribute field is
exactly fixedTPM plus fixedParent, the derived migratable value is 0. -/
theorem tpm2_load_migratable_derivation_witness :
    (tpm2_load_body c5w_payload c2w_options c5w_payload.blob 14 false
      zero_load_oracle).payload.migratable = 0 :=
  ((tpm2_load_migratable_derivation c5w_payload c2w_options
      c5w_payload.blob 14 false zero_load_oracle (by decide) (by decide)
      (by decide) (by decide)).1).mpr (by decide)

theorem tpm2_seal_out_options (rc blob_len : Int)
    (payload : trusted_key_payload) (options : trusted_key_options)
    (events : List tpm_event) :
    (tpm2_seal_out rc blob_len payload options events).options =
    options := by
  unfold tpm2_seal_out
  split_ifs <;> rfl

set_option maxHeartbeats 1000000 in
theorem tpm2_seal_trusted_options (payload : trusted_key_payload)
    (options : trusted_key_options) (o : tpm2_seal_oracle) :
    (tpm2_seal_trusted payload options o).options = options := by
  simp only [tpm2_seal_trusted]
  split
  · rfl
  · split_ifs <;>
      first
      | rfl
      | apply tpm2_seal_out_options
      | (split <;> apply tpm2_seal_out_options)

theorem tpm2_key_decode_options (payload : trusted_key_payload)
    (options : trusted_key_options) (d : tpm2_key_decode_result)
    (h : tpm2_key_decode payload options = Except.ok d) :
    d.options = { options with keyhandle := d.parent } := by
  unfold tpm2_key_decode at h
  split at h
  · exact Except.noConfusion h
  · split at h
    · exact Except.noConfusion h
    · rw [Except.ok.injEq] at h
      subst h
      rfl

theorem tpm2_unseal_cmd_options (payload : trusted_key_payload)
    (options : trusted_key_options) (o : tpm2_unseal_oracle) :
    (tpm2_unseal_cmd payload options o).options = options := by
  simp only [tpm2_unseal_cmd]
  split_ifs <;> rfl

/-- Field-wise equality of two options structures on every field except
the parent handle. -/
def options_eq_except_keyhandle (a b : trusted_key_options) : Prop :=
  a.keyauth = b.keyauth ∧ a.blobauth = b.blobauth ∧
  a.blobauth_len = b.blobauth_len ∧ a.policydigest = b.policydigest ∧
  a.policydigest_len = b.policydigest_len ∧
  a.policyhandle = b.policyhandle ∧ a.hash = b.hash

theorem tpm2_load_cmd_options (payload : trusted_key_payload)
    (options : trusted_key_options) (o : tpm2_load_oracle) :
    options_eq_except_keyhandle (tpm2_load_cmd payload options o).options
      options := by
  unfold tpm2_load_cmd
  split
  · next d heq =>
    rw [tpm2_load_body_options]
    rw [tpm2_key_decode_options payload options d heq]
    exact ⟨rfl, rfl, rfl, rfl, rfl, rfl, rfl⟩
  · rw [tpm2_load_body_options]
    exact ⟨rfl, rfl, rfl, rfl, rfl, rfl, rfl⟩

theorem tpm2_unseal_trusted_options (payload : trusted_key_payload)
    (options : trusted_key_options) (tg : Int) (lo : tpm2_load_oracle)
    (uo : tpm2_unseal_oracle) :
    options_eq_except_keyhandle
      (tpm2_unseal_trusted payload options tg lo uo).options options := by
  simp only [tpm2_unseal_trusted]
  split_ifs
  · exact ⟨rfl, rfl, rfl, rfl, rfl, rfl, rfl⟩
  · exact tpm2_load_cmd_options payload options lo
  · rw [tpm2_unseal_cmd_options]
    exact tpm2_load_cmd_options payload options lo

/-- C3 (amended): the options structure is read-only to every operation
of the core except for one field on one path: a successful
`tpm2_key_decode` stores the decoded parent into `options->keyhandle`
(and `tpm2_load_cmd` and `tpm2_unseal_trusted` inherit that write on
their new-format paths).  `tpm2_seal_trusted` and `tpm2_unseal_cmd`
leave the options fully unchanged on every path, and no operation
modifies any field other than `keyhandle`. -/
theorem tpm2_options_frame (payload : trusted_key_payload)
    (options : trusted_key_options) (so : tpm2_seal_oracle)
    (lo : tpm2_load_oracle) (uo : tpm2_unseal_oracle) (tg : Int) :
    (tpm2_seal_trusted payload options so).options = options
    ∧ (tpm2_unseal_cmd payload options uo).options = options
    ∧ (∀ d, tpm2_key_decode payload options = Except.ok d →
        d.options = { options with keyhandle := d.parent })
    ∧ options_eq_except_keyhandle
        (tpm2_load_cmd payload options lo).options options
    ∧ options_eq_except_keyhandle
        (tpm2_unseal_trusted payload options tg lo uo).options options :=
  ⟨tpm2_seal_trusted_options payload options so,
   tpm2_unseal_cmd_options payload options uo,
   fun d h => tpm2_key_decode_options payload options d h,
   tpm2_load_cmd_options payload options lo,
   tpm2_unseal_trusted_options payload options tg lo uo⟩

/-- Modelled from the spec: a seal oracle whose external collaborators
all succeed and whose response carries no blob. -/
def zero_seal_oracle : tpm2_seal_oracle :=
  { try_get_ops := 0, start_auth_session := 0, buf_init := 0,
    buf_init_sized := 0, overflow := false, create_rc := 0,
    resp_blob_len := 0, boundary := false, resp := [] }

/-- An unseal oracle whose collaborators succeed with an empty
response. -/
def zero_unseal_oracle : tpm2_unseal_oracle :=
  { start_auth_session := 0, buf_init := 0, unseal_rc := 0, resp := [] }

/-- Witness for C3 (amended): decoding the concrete structured blob with
parent 1 rewrites the caller's `keyhandle` (7) to 1 and touches nothing
else. -/
theorem tpm2_options_frame_witness :
    ({ buffer := [0xFF, 0xFF, 0, 0], allocLen := 8, parent := 1,
       priv := [0xFF, 0xFF], pub := [0, 0],
       options := { c2cex_options with keyhandle := 1 } }
      : tpm2_key_decode_result).options =
    { c2cex_options with keyhandle := 1 } :=
  (tpm2_options_frame c4_payload c2cex_options zero_seal_oracle
    zero_load_oracle zero_unseal_oracle 0).2.2.1 _ rfl

/-- Counterexample to C3 as stated: `tpm2_key_decode` modifies the
caller-supplied options — on the concrete structured blob with parent 1
the returned options differ from the input options, whose `keyhandle`
was 7. -/
theorem tpm2_key_decode_writes_options_cex :
    (tpm2_key_decode c4_payload c2cex_options).map (fun d => d.options) =
      Except.ok { c2cex_options with keyhandle := 1 }
    ∧ c2cex_options.keyhandle = 7
    ∧ ({ c2cex_options with keyhandle := 1 } : trusted_key_options) ≠
        c2cex_options := by
  refine ⟨rfl, rfl, ?_⟩
  decide

/-- C6: for every module response on the successful-exchange path, if the
returned secret length read at the fixed offset is below `MIN_KEY_SIZE`
or above `MAX_KEY_SIZE`, or the response buffer does not contain that
many bytes after the length field, `tpm2_unseal_cmd` returns `-EFAULT`
and copies nothing into the payload. -/
theorem tpm2_unseal_secret_bounds (payload : trusted_key_payload)
    (options : trusted_key_options) (o : tpm2_unseal_oracle)
    (hs : o.start_auth_session = 0) (hb : o.buf_init = 0)
    (hrc : o.unseal_rc = 0)
    (hbad : get_be16 (o.resp.drop (TPM_HEADER_SIZE + 4)) < MIN_KEY_SIZE ∨
      MAX_KEY_SIZE < get_be16 (o.resp.drop (TPM_HEADER_SIZE + 4)) ∨
      o.resp.length < TPM_HEADER_SIZE + 6 +
        get_be16 (o.resp.drop (TPM_HEADER_SIZE + 4))) :
    (tpm2_unseal_cmd payload options o).ret = -EFAULT ∧
    (tpm2_unseal_cmd payload options o).payload = payload := by
  simp only [tpm2_unseal_cmd]
  rw [if_neg (by simp [hs]), if_neg (by simp [hb]), hrc]
  rw [if_neg (by omega : ¬(0 : Int) < 0), if_pos rfl]
  by_cases h1 : get_be16 (o.resp.drop (TPM_HEADER_SIZE + 4)) <
      MIN_KEY_SIZE ∨ MAX_KEY_SIZE < get_be16 (o.resp.drop
      (TPM_HEADER_SIZE + 4))
  · rw [if_pos h1]
    exact ⟨rfl, rfl⟩
  · have h3 : o.resp.length < TPM_HEADER_SIZE + 6 +
        get_be16 (o.resp.drop (TPM_HEADER_SIZE + 4)) := by
      rcases hbad with h | h | h
      · exact absurd (Or.inl h) h1
      · exact absurd (Or.inr h) h1
      · exact h
    rw [if_neg h1, if_pos h3]
    exact ⟨rfl, rfl⟩

/-- Oracle for the C6 witness: a 16-byte response declaring a 10-byte
secret, below `MIN_KEY_SIZE`. -/
def c6w_oracle : tpm2_unseal_oracle :=
  { start_auth_session := 0, buf_init := 0, unseal_rc := 0,
    resp := List.replicate 14 0 ++ [0, 10] }

/-- Witness for C6: a declared secret length of 10 is rejected with
`-EFAULT`. -/
theorem tpm2_unseal_secret_bounds_witness :
    (tpm2_unseal_cmd c2w_payload c2w_options c6w_oracle).ret = -EFAULT :=
  (tpm2_unseal_secret_bounds c2w_payload c2w_options c6w_oracle rfl rfl rfl
    (Or.inl (by decide))).1

/-- C7: on a successful unseal whose returned secret length N is within
bounds and fully present, the legacy split applies: with `old_format`
set, the key receives the first N-1 returned bytes, `key_len` becomes
N-1, and `migratable` is assigned the N-th (last) returned byte — so its
truth value equals that byte's truth value; without `old_format`, all N
bytes become the key with `key_len = N` and `migratable` is left as
determined during Load. -/
theorem tpm2_unseal_legacy_split (payload : trusted_key_payload)
    (options : trusted_key_options) (o : tpm2_unseal_oracle)
    (hs : o.start_auth_session = 0) (hb : o.buf_init = 0)
    (hrc : o.unseal_rc = 0)
    (hlo : MIN_KEY_SIZE ≤ get_be16 (o.resp.drop (TPM_HEADER_SIZE + 4)))
    (hhi : get_be16 (o.resp.drop (TPM_HEADER_SIZE + 4)) ≤ MAX_KEY_SIZE)
    (hlen : TPM_HEADER_SIZE + 6 +
      get_be16 (o.resp.drop (TPM_HEADER_SIZE + 4)) ≤ o.resp.length) :
    (tpm2_unseal_cmd payload options o).ret = 0
    ∧ (payload.old_format ≠ 0 →
        (tpm2_unseal_cmd payload options o).payload.key =
          (o.resp.drop (TPM_HEADER_SIZE + 6)).take
            (get_be16 (o.resp.drop (TPM_HEADER_SIZE + 4)) - 1)
        ∧ (tpm2_unseal_cmd payload options o).payload.key_len =
            get_be16 (o.resp.drop (TPM_HEADER_SIZE + 4)) - 1
        ∧ (tpm2_unseal_cmd payload options o).payload.migratable =
            (o.resp.drop (TPM_HEADER_SIZE + 6)).getD
              (get_be16 (o.resp.drop (TPM_HEADER_SIZE + 4)) - 1) 0
        ∧ ((tpm2_unseal_cmd payload options o).payload.migratable ≠ 0 ↔
            (o.resp.drop (TPM_HEADER_SIZE + 6)).getD
              (get_be16 (o.resp.drop (TPM_HEADER_SIZE + 4)) - 1) 0 ≠ 0))
    ∧ (payload.old_format = 0 →
        (tpm2_unseal_cmd payload options o).payload.key =
          (o.resp.drop (TPM_HEADER_SIZE + 6)).take
            (get_be16 (o.resp.drop (TPM_HEADER_SIZE + 4)))
        ∧ (tpm2_unseal_cmd payload options o).payload.key_len =
            get_be16 (o.resp.drop (TPM_HEADER_SIZE + 4))
        ∧ (tpm2_unseal_cmd payload options o).payload.migratable =
            payload.migratable) := by
  have hred : tpm2_unseal_cmd payload options o =
      (if payload.old_format ≠ 0 then
        { ret := 0,
          payload := { payload with
            key := (o.resp.drop (TPM_HEADER_SIZE + 6)).take
              (get_be16 (o.resp.drop (TPM_HEADER_SIZE + 4)) - 1),
            key_len := get_be16 (o.resp.drop (TPM_HEADER_SIZE + 4)) - 1,
            migratable := (o.resp.drop (TPM_HEADER_SIZE + 6)).getD
              (get_be16 (o.resp.drop (TPM_HEADER_SIZE + 4)) - 1) 0 },
          options := options }
      else
        { ret := 0,
          payload := { payload with
            key := (o.resp.drop (TPM_HEADER_SIZE + 6)).take
              (get_be16 (o.resp.drop (TPM_HEADER_SIZE + 4))),
            key_len := get_be16 (o.resp.drop (TPM_HEADER_SIZE + 4)) },
          options := options }) := by
    simp only [tpm2_unseal_cmd]
    rw [if_neg (by simp [hs]), if_neg (by simp [hb]), hrc]
    rw [if_neg (by omega : ¬(0 : Int) < 0), if_pos rfl]
    rw [if_neg (by omega), if_neg (by omega)]
  rw [hred]
  by_cases hof : payload.old_format ≠ 0
  · rw [if_pos hof]
    refine ⟨rfl, fun _ => ⟨rfl, rfl, rfl, Iff.rfl⟩, fun h0 => absurd h0 hof⟩
  · rw [if_neg hof]
    exact ⟨rfl, fun h => absurd h hof, fun _ => ⟨rfl, rfl, rfl⟩⟩

/-- Legacy-format payload for the C7 witness. -/
def c7w_payload : trusted_key_payload :=
  { key := [], key_len := 0, blob := [1, 2], migratable := 0,
    old_format := 1 }

/-- Oracle for the C7 witness: a response declaring a 32-byte secret whose
last byte is 2. -/
def c7w_oracle : tpm2_unseal_oracle :=
  { start_auth_session := 0, buf_init := 0, unseal_rc := 0,
    resp := List.replicate 14 0 ++ [0, 32] ++
      (List.replicate 31 0xAA ++ [2]) }

/-- Witness for C7: with `old_format` set and a 32-byte returned secret,
`key_len` becomes 31. -/
theorem tpm2_unseal_legacy_split_witness :
    (tpm2_unseal_cmd c7w_payload c2w_options c7w_oracle).payload.key_len =
    32 - 1 := by
  have h := (tpm2_unseal_legacy_split c7w_payload c2w_options c7w_oracle
    rfl rfl rfl (by decide) (by decide) (by decide)).2.1 (by decide)
  have h16 : get_be16 (c7w_oracle.resp.drop (TPM_HEADER_SIZE + 4)) = 32 := by
    decide
  rw [h16] at h
  exact h.2.1

/-- C8: whenever the parent handle is zero or the digest algorithm does
not resolve in the static hash map, `tpm2_seal_trusted` returns `-EINVAL`
before acquiring module access or starting any session (no external event
occurs), leaving the payload and options unchanged. -/
theorem tpm2_seal_precondition (payload : trusted_key_payload)
    (options : trusted_key_options) (o : tpm2_seal_oracle)
    (h : options.keyhandle = 0 ∨
      tpm2_hash_map.find? (fun p => p.1 = options.hash) = none) :
    (tpm2_seal_trusted payload options o).ret = -EINVAL ∧
    (tpm2_seal_trusted payload options o).payload = payload ∧
    (tpm2_seal_trusted payload options o).options = options ∧
    (tpm2_seal_trusted payload options o).events = [] := by
  simp only [tpm2_seal_trusted]
  rcases h with h | h
  · split
    · exact ⟨rfl, rfl, rfl, rfl⟩
    · rw [if_pos h]
      exact ⟨rfl, rfl, rfl, rfl⟩
  · rw [h]
    exact ⟨rfl, rfl, rfl, rfl⟩

/-- Options with an unsupported digest-algorithm identifier. -/
def c8w_options : trusted_key_options :=
  { keyhandle := 3, keyauth := [], blobauth := [], blobauth_len := 0,
    policydigest := [], policydigest_len := 0, policyhandle := 0,
    hash := 99 }

/-- Witness for C8: digest identifier 99 is not in the hash map, so Seal
fails with `-EINVAL` and no external event occurs. -/
theorem tpm2_seal_precondition_witness :
    (tpm2_seal_trusted c2w_payload c8w_options zero_seal_oracle).ret =
      -EINVAL ∧
    (tpm2_seal_trusted c2w_payload c8w_options zero_seal_oracle).events =
      [] :=
  ⟨(tpm2_seal_precondition c2w_payload c8w_options zero_seal_oracle
      (Or.inr (by decide))).1,
   (tpm2_seal_precondition c2w_payload c8w_options zero_seal_oracle
      (Or.inr (by decide))).2.2.2⟩

/-- C9: on the path where the Create exchange reports a positive module
status, `tpm2_seal_trusted` maps a status whose normalized return-code
value equals `TPM2_RC_HASH` to `-EINVAL` and every other positive status
to `-EPERM`. -/
theorem tpm2_seal_status_mapping (payload : trusted_key_payload)
    (options : trusted_key_options) (o : tpm2_seal_oracle)
    (pr : Nat × Nat)
    (hfind : tpm2_hash_map.find? (fun p => p.1 = options.hash) = some pr)
    (hk : ¬options.keyhandle = 0) (h1 : o.try_get_ops = 0)
    (h2 : o.start_auth_session = 0) (h3 : o.buf_init = 0)
    (h4 : o.buf_init_sized = 0) (h5 : o.overflow = false)
    (hpos : 0 < o.create_rc) :
    (tpm2_seal_trusted payload options o).ret =
      (if tpm2_rc_value o.create_rc.toNat = TPM2_RC_HASH then -EINVAL
       else -EPERM) := by
  simp only [tpm2_seal_trusted]
  rw [hfind]
  rw [if_neg hk, if_neg (by simp [h1]), if_neg (by simp [h2]),
    if_neg (by simp [h3]), if_neg (by simp [h4]), if_neg (by simp [h5]),
    if_pos (by omega : o.create_rc ≠ 0)]
  simp only [tpm2_seal_out]
  rw [if_pos hpos, if_neg (by omega : ¬(0 : Int) < 0)]

/-- Oracle for the C9 witness: the Create exchange reports module status
0x183 — a format-one code whose normalized value is `TPM2_RC_HASH`. -/
def c9w_oracle : tpm2_seal_oracle :=
  { try_get_ops := 0, start_auth_session := 0, buf_init := 0,
    buf_init_sized := 0, overflow := false, create_rc := 0x183,
    resp_blob_len := 0, boundary := false, resp := [] }

/-- Witness for C9: module status 0x183 normalizes to `TPM2_RC_HASH` and
is mapped to `-EINVAL`. -/
theorem tpm2_seal_status_mapping_witness :
    (tpm2_seal_trusted c2w_payload c2w_options c9w_oracle).ret =
    -EINVAL :=
  (tpm2_seal_status_mapping c2w_payload c2w_options c9w_oracle
    (HASH_ALGO_SHA1, TPM_ALG_SHA1) (by decide) (by decide) rfl rfl rfl rfl
    rfl (by decide)).trans (by decide)
